import Mathlib

/-!
Verification of the markdown-link checker `ci/md-links-test.py`.

The Python script is embedded shallowly: each helper below mirrors the
CPython string primitive the script uses (`in`, `startswith`, `endswith`,
`strip`, `replace`, `split`), working on `String.data` character lists so
that every definition is executable and kernel-reducible.
-/

namespace MdLinks

/-- Python `pat in s`: substring containment. -/
def pyIn (pat s : String) : Bool :=
  s.data.tails.any (fun t => pat.data.isPrefixOf t)

/-- Python `s.startswith(pre)`. -/
def pyStartsWith (s pre : String) : Bool :=
  pre.data.isPrefixOf s.data

/-- Python `s.endswith(suf)`. -/
def pyEndsWith (s suf : String) : Bool :=
  suf.data.isSuffixOf s.data

/-- Python whitespace, as recognised by `str.strip()`. -/
def isPySpace (c : Char) : Bool :=
  c = ' ' || c = '\t' || c = '\n' || c = '\r' || c = '\x0b' || c = '\x0c'

/-- Python `s.strip()`: drop whitespace from both ends. -/
def pyStrip (s : String) : String :=
  ⟨(((s.data.dropWhile isPySpace).reverse.dropWhile isPySpace)).reverse⟩

/-- One left-to-right, non-overlapping replacement pass over a character
list, with fuel (the fuel is always at least the list length, so it never
runs out). Mirrors CPython `str.replace`. -/
def replListAux (pat rep : List Char) : Nat → List Char → List Char
  | 0, s => s
  | _ + 1, [] => []
  | fuel + 1, c :: cs =>
    if !pat.isEmpty && pat.isPrefixOf (c :: cs) then
      rep ++ replListAux pat rep fuel ((c :: cs).drop pat.length)
    else
      c :: replListAux pat rep fuel cs

/-- Python `s.replace(pat, rep)` (for the non-empty patterns the script uses). -/
def pyReplace (s pat rep : String) : String :=
  ⟨replListAux pat.data rep.data s.data.length s.data⟩

/-- Python `s.split(sep)` on a single-character separator. -/
def splitChar (sep : Char) : List Char → List (List Char)
  | [] => [[]]
  | c :: cs =>
    match splitChar sep cs with
    | [] => [[]]
    | r :: rs => if c = sep then [] :: r :: rs else (c :: r) :: rs

/-- Python `s.split("/")`, producing strings. -/
def pySplitSlash (s : String) : List String :=
  (splitChar '/' s.data).map (fun l => ⟨l⟩)

/-- Python `s.split("#", 1)[0]`: everything before the first `#`. -/
def beforeHash (s : String) : String :=
  ⟨s.data.takeWhile (fun c => c ≠ '#')⟩

/-! ## Data model (classes `Guide`, `Asset`, `Issue`, `IssueType`) -/

/-- Class `Guide` (the fields the checker reads: `path`, `title`, `link`,
`aliases`; the mutable bookkeeping fields `assets`/`anchors`/`issues`/
`logged` are never read by the link checker and are omitted). -/
structure Guide where
  path : String
  title : String
  link : String
  aliases : List String
deriving Repr, DecidableEq

/-- Class `Asset`. -/
structure Asset where
  link : String
deriving Repr, DecidableEq

/-- Class `Issue` (fields `affected_guides` and `notes` are never populated
by the script and are omitted). -/
structure Issue where
  link : String
  type_id : String
deriving Repr, DecidableEq

/-- Class `IssueType` (static part; the per-run `issues` accumulator is
made explicit in `aggregate` below). -/
structure IssueType where
  id : String
  title : String
  summary : String
  severity : String
  weight : Nat
deriving Repr, DecidableEq

/-- The six statically defined issue types, in source order. -/
def issue_types : List IssueType :=
  [⟨"not-found", "Target not found",
    "The target of the link has not been found (would likely result in a 404 error).",
    "failure", 0⟩,
   ⟨"duplicate-alias", "Duplicate alias",
    "This alias appears in multiple guides.",
    "failure", 10⟩,
   ⟨"docs-domain-name", "Contains domain name",
    "The link contains the domain name of the docs site.",
    "failure", 20⟩,
   ⟨"incorrect-root", "Incorrect root directory",
    "The link does not point to the correct root (/docs/)",
    "failure", 30⟩,
   ⟨"other", "Other issues",
    "The link contains other unspecified issues, like extra characters or incorrect formatting.",
    "failure", 40⟩,
   ⟨"points-to-alias", "Target is alias",
    "The link points to an alias of guide instead of its current URL.",
    "warning", 50⟩]

/-! ## Registry builder (`get_guides`)

The filesystem walk over `DOCS_DIR` is abstracted as a list of discovered
files in walk order; each file carries its path and, for markdown files,
the outcome of `frontmatter.load` (`none` models a parse failure, which the
script logs and skips). -/

/-- The front-matter keys the script reads. A `none` field models the key
being absent; a missing `title` makes the `Guide` constructor call raise
`KeyError`, which the `except` clause turns into skipping the file. -/
structure FrontMatter where
  headless : Option Bool := none
  slug : Option String := none
  title : Option String := none
  aliases : Option (List String) := none
deriving Repr, DecidableEq

/-- One file discovered by the `os.walk` loops. -/
structure FileEntry where
  path : String
  fm : Option FrontMatter := none
deriving Repr, DecidableEq

/-- The four top-level guides appended before the walk (lines 136-139). -/
def seedGuides : List Guide :=
  [⟨"docs/_index.md", "Docs Home", "/docs/", []⟩,
   ⟨"", "Marketplace", "/docs/marketplace/", []⟩,
   ⟨"", "Resources", "/docs/resources/", []⟩,
   ⟨"", "Q&A", "/docs/topresults/?docType=community", []⟩]

/-- Canonical link derived from the file path alone (lines 166-168). -/
def defaultLink (path : String) : String :=
  pyReplace (pyReplace ("/" ++ path) ("/index.md") ("/")) ("/_index.md") ("/")

/-- Canonical link of a markdown file (lines 161-168). -/
def canonicalLink (path : String) (fm : FrontMatter) : String :=
  match fm.slug with
  | some slug =>
    if pyIn ("docs/guides/") path then "/docs/guides/" ++ slug ++ "/"
    else if pyIn ("docs/api/") path then "/docs/api/" ++ slug ++ "/"
    else defaultLink path
  | none => defaultLink path

/-- Link of a non-markdown asset (lines 183-188). Python indexes
`path_segments[-2]` and `path_segments[-1]`. -/
def assetLink (path : String) : String :=
  if pyIn ("docs/guides/") path then
    let segs := pySplitSlash path
    "/docs/guides/" ++ (segs.dropLast.getLastD "") ++ "/" ++ (segs.getLastD "")
  else "/" ++ path

/-- Processing of one discovered file (lines 150-189). -/
def scanStep (e : FileEntry) (r : List Guide × List Asset) : List Guide × List Asset :=
  if pyEndsWith e.path (".md") then
    match e.fm with
    | none => r
    | some fm =>
      if fm.headless == some true then r
      else
        match fm.title with
        | none => r
        | some t => (Guide.mk e.path t (canonicalLink e.path fm) (fm.aliases.getD []) :: r.1, r.2)
  else (r.1, Asset.mk (assetLink e.path) :: r.2)

/-- The walk, accumulating guides and assets in discovery order. -/
def scanFiles (fs : List FileEntry) : List Guide × List Asset :=
  fs.foldr scanStep ([], [])

/-- `get_guides` (lines 130-191): the four seed guides followed by the
guides built from the walked files, plus the discovered assets. -/
def get_guides (fs : List FileEntry) : List Guide × List Asset :=
  (seedGuides ++ (scanFiles fs).1, (scanFiles fs).2)

/-! ## Duplicate-alias checker (`get_duplicate_aliases`, lines 196-208) -/

/-- The nested loops with the running `aliases` seen-set. -/
def dupAux : List String → List String → List Issue
  | [], _ => []
  | a :: rest, seen =>
    if seen.contains a then Issue.mk a ("duplicate-alias") :: dupAux rest seen
    else dupAux rest (a :: seen)

/-- `get_duplicate_aliases`: guides in registry order, each alias list in
order, flagging every occurrence of an alias already seen. -/
def get_duplicate_aliases (guides : List Guide) : List Issue :=
  dupAux (guides.flatMap Guide.aliases) []

/-! ## Link extractor and classifier (`check_internal_markdown_links`) -/

/-- `elementsToIgnore` (line 220). -/
def elementsToIgnore : List String :=
  ["\x7b\x7b< file", "```", "\x7b\x7b< command"]

/-- `line.strip().startswith(tuple(elementsToIgnore))` (lines 239 and 242). -/
def isMarkerLine (line : String) : Bool :=
  elementsToIgnore.any (fun m => pyStartsWith (pyStrip line) m)

/-- The per-line loop of lines 236-249, parametrised by the per-line link
extraction (`re.finditer` with the link regex, returning the matched
targets in order). `inside` is the `insideSpecialElement` flag. The second
branch reproduces the `elif` of line 242, whose condition is identical to
the `if` of line 239. -/
def scanLines (extract : String → List String) : List String → Bool → List String
  | [], _ => []
  | line :: rest, inside =>
    if isMarkerLine line then scanLines extract rest true
    else if isMarkerLine line then scanLines extract rest false
    else if inside then scanLines extract rest inside
    else extract line ++ scanLines extract rest inside

/-- The `//`-collapse normalization of lines 276-279: the formatting issue
appended (if any) and the locally rewritten link. -/
def collapseSlashes (link0 link1 : String) : List Issue × String :=
  if pyIn ("//") link1 then ([Issue.mk link0 ("formatting")], pyReplace link1 ("//") ("/"))
  else ([], link1)

/-- The trailing-slash normalization of lines 280-283: the formatting issue
appended (if any) and the locally rewritten link. -/
def appendSlash (link0 link2 : String) : List Issue × String :=
  if !(pyEndsWith link2 ("/")) then ([Issue.mk link0 ("formatting")], link2 ++ "/")
  else ([], link2)

/-- The terminal lookup of lines 284-290: canonical-link lookup, then alias
lookup on the (possibly normalized) link, else `not-found`. -/
def lookupIssues (guides : List Guide) (link0 link3 : String) : List Issue :=
  if guides.any (fun x => x.link == link3) then []
  else if guides.any (fun x => x.aliases.contains (pyReplace link3 ("/docs/") ("/"))) then
    [Issue.mk link0 ("points-to-alias")]
  else [Issue.mk link0 ("not-found")]

/-- Lines 275-290: both formatting rules (which append an issue and keep
going on the rewritten link), then the terminal lookup. -/
def classifyTail (guides : List Guide) (link0 link1 : String) : List Issue :=
  let c := collapseSlashes link0 link1
  let s := appendSlash link0 c.2
  c.1 ++ s.1 ++ lookupIssues guides link0 s.2

/-- Classification of one extracted link target (lines 251-290). Returns
the issues appended for this link, in append order. -/
def classifyLink (guides : List Guide) (assets : List Asset) (link0 : String) : List Issue :=
  if pyIn ("linode.com/docs/") link0 then [Issue.mk link0 ("docs-domain-name")]
  else if pyStartsWith link0 ("http://") || pyStartsWith link0 ("https://")
      || pyStartsWith link0 ("ftp://") then []
  else if (assets.any (fun x => x.link == link0)) then []
  else if pyStartsWith link0 ("#") then []
  else
    let link1 := if pyIn ("#") link0 then beforeHash link0 else link0
    if !(pyIn ("/") link1) && pyIn (".") link1 then []
    else if !(pyStartsWith link1 ("/docs/")) then [Issue.mk link0 ("incorrect-root")]
    else classifyTail guides link0 link1

/-- The issues contributed by one guide (lines 224-290): guides with an
empty path are skipped; otherwise every link extracted from the guide file
(`content` maps a path to the file lines) is classified. -/
def guideLinkIssues (extract : String → List String) (content : String → List String)
    (guides : List Guide) (assets : List Asset) (guide : Guide) : List Issue :=
  if guide.path = "" then []
  else (scanLines extract (content guide.path) false).flatMap (classifyLink guides assets)

/-- `check_internal_markdown_links` (lines 213-291). -/
def check_internal_markdown_links (extract : String → List String)
    (content : String → List String)
    (guides : List Guide) (assets : List Asset) : List Issue :=
  guides.flatMap (guideLinkIssues extract content guides assets)

/-! ## Aggregation and exit code (`main`, lines 296-365)

The source sorts `issue_types` by weight before testing for failures; the
static list is already in ascending weight order, so the sort leaves it
unchanged and the grouping below works on the static order. -/

/-- The nested loops of lines 307-310: each issue type paired with the
issues whose `type_id` equals its `id`, in issue order. -/
def aggregate (issues : List Issue) : List (IssueType × List Issue) :=
  issue_types.map (fun t => (t, issues.filter (fun i => i.type_id == t.id)))

/-- Lines 316-319: some failure-severity type has a non-empty issue list. -/
def test_failed (issues : List Issue) : Bool :=
  (aggregate issues).any (fun p => p.1.severity == "failure" && !(p.2.length == 0))

/-- Lines 340-365: `sys.exit(1)` when the test failed, exit 0 otherwise. -/
def exit_code (issues : List Issue) : Nat :=
  if test_failed issues then 1 else 0

/-! ## Helper lemmas -/

/-- Formatting issues are removed by the non-formatting filter. -/
lemma filter_fmt_nil (l : String) :
    (List.filter (fun i => !(i.type_id == "formatting")) [Issue.mk l ("formatting")]) = [] := rfl

lemma collapseSlashes_fmt (l0 l1 : String) :
    ((collapseSlashes l0 l1).1.filter (fun i => !(i.type_id == "formatting"))) = [] := by
  unfold collapseSlashes
  split_ifs <;> simp [filter_fmt_nil]

lemma appendSlash_fmt (l0 l2 : String) :
    ((appendSlash l0 l2).1.filter (fun i => !(i.type_id == "formatting"))) = [] := by
  unfold appendSlash
  split_ifs <;> simp [filter_fmt_nil]

lemma lookup_nonformatting_len (g : List Guide) (l0 l3 : String) :
    ((lookupIssues g l0 l3).filter (fun i => !(i.type_id == "formatting"))).length ≤ 1 := by
  unfold lookupIssues
  split_ifs <;> simp

lemma classifyTail_nonformatting (guides : List Guide) (link0 link1 : String) :
    ((classifyTail guides link0 link1).filter (fun i => !(i.type_id == "formatting"))).length ≤ 1 := by
  unfold classifyTail
  simp only [List.filter_append, List.length_append, collapseSlashes_fmt, appendSlash_fmt,
    List.length_nil, Nat.zero_add, Nat.add_zero]
  exact lookup_nonformatting_len guides link0 _

/-- Once the `insideSpecialElement` flag is set, no line produces links. -/
lemma scanLines_inside (extract : String → List String) (lines : List String) :
    scanLines extract lines true = [] := by
  induction lines with
  | nil => simp [scanLines]
  | cons line rest ih => by_cases h : isMarkerLine line <;> simp [scanLines, h, ih]

/-- Count of duplicate-alias issues for a given alias, relative to the
running seen-set. -/
lemma dupAux_countP (a : String) (l : List String) : ∀ (seen : List String),
    (dupAux l seen).countP (fun i => i.link == a) =
      if a ∈ seen then l.count a else l.count a - 1 := by
  induction l with
  | nil => intro seen; simp [dupAux]
  | cons x xs ih =>
    intro seen
    by_cases hx : x ∈ seen
    · rw [show dupAux (x :: xs) seen = Issue.mk x ("duplicate-alias") :: dupAux xs seen from by
        simp [dupAux, hx]]
      rw [List.countP_cons, ih seen]
      by_cases hxa : x = a
      · subst hxa
        simp [hx, List.count_cons]
      · simp [List.count_cons, hxa, show (x == a) = false from by simp [hxa]]
    · rw [show dupAux (x :: xs) seen = dupAux xs (x :: seen) from by
        simp [dupAux, hx]]
      rw [ih (x :: seen)]
      by_cases hxa : x = a
      · subst hxa
        simp [hx, List.count_cons]
      · simp [List.count_cons, hxa, List.mem_cons,
          show ¬(a = x) from fun hh => hxa hh.symm,
          show (x == a) = false from by simp [hxa]]

/-- Every issue emitted by the duplicate-alias checker has the
`duplicate-alias` type id. -/
lemma dupAux_type_id (l : List String) : ∀ (seen : List String),
    ∀ i ∈ dupAux l seen, i.type_id = "duplicate-alias" := by
  induction l with
  | nil => intro seen i hi; simp [dupAux] at hi
  | cons x xs ih =>
    intro seen i hi
    by_cases hx : x ∈ seen
    · rw [show dupAux (x :: xs) seen = Issue.mk x ("duplicate-alias") :: dupAux xs seen from by
        simp [dupAux, hx]] at hi
      rcases List.mem_cons.mp hi with h | h
      · simp [h]
      · exact ih seen i h
    · rw [show dupAux (x :: xs) seen = dupAux xs (x :: seen) from by
        simp [dupAux, hx]] at hi
      exact ih (x :: seen) i hi

/-! ## Claims -/

/-- Claim C1, counterexample. A target `/docs/guides/foo` against a corpus
where page `bar` has alias `guides/foo` (and no page has canonical link
`/docs/guides/foo/`) yields a formatting issue followed by `not-found`, not
`points-to-alias`: the alias lookup compares the normalized target with
`/docs/` replaced by `/` (giving `/guides/foo/`), which does not equal the
alias string `guides/foo`. -/
theorem c1_counterexample :
    classifyLink [Guide.mk ("docs/guides/bar/index.md") ("Bar") ("/docs/guides/bar/")
        (["guides/foo"])] [] ("/docs/guides/foo") =
      [Issue.mk ("/docs/guides/foo") ("formatting"),
       Issue.mk ("/docs/guides/foo") ("not-found")] ∧
    ∀ i ∈ classifyLink [Guide.mk ("docs/guides/bar/index.md") ("Bar") ("/docs/guides/bar/")
        (["guides/foo"])] [] ("/docs/guides/foo"),
      i.type_id ≠ "points-to-alias" := by decide

/-- Claim C1, amended. For a target of the form `/docs/...` lacking a
trailing slash (and surviving the earlier checks), the classifier first
emits a formatting issue and then continues on the locally normalized
target: when no page has canonical link equal to the normalized target but
some page's alias list contains the normalized target with its `/docs/`
prefix replaced by `/`, the formatting issue is followed by a
`points-to-alias` issue, because normalization happens before the alias
lookup. -/
theorem c1_formatting_then_alias (guides : List Guide) (assets : List Asset) (L : String)
    (h1 : pyIn ("linode.com/docs/") L = false)
    (h2 : pyStartsWith L ("http://") = false)
    (h3 : pyStartsWith L ("https://") = false)
    (h4 : pyStartsWith L ("ftp://") = false)
    (h5 : assets.any (fun x => x.link == L) = false)
    (h6 : pyStartsWith L ("#") = false)
    (h7 : pyIn ("#") L = false)
    (h8 : pyIn ("/") L = true)
    (h9 : pyStartsWith L ("/docs/") = true)
    (h10 : pyIn ("//") L = false)
    (h11 : pyEndsWith L ("/") = false)
    (h12 : guides.any (fun x => x.link == L ++ "/") = false)
    (h13 : guides.any (fun x => x.aliases.contains (pyReplace (L ++ "/") ("/docs/") ("/"))) = true) :
    classifyLink guides assets L =
      [Issue.mk L ("formatting"), Issue.mk L ("points-to-alias")] := by
  simp [classifyLink, classifyTail, collapseSlashes, appendSlash, lookupIssues,
    h1, h2, h3, h4, h5, h6, h7, h8, h9, h10, h11, h12]
  simpa using h13

/-- Witness for C1 amended: page `bar` has alias `/guides/foo/`, and the
link `/docs/guides/foo` yields formatting followed by points-to-alias. -/
theorem c1_witness :
    classifyLink [Guide.mk ("docs/guides/bar/index.md") ("Bar") ("/docs/guides/bar/")
        (["/guides/foo/"])] [] ("/docs/guides/foo") =
      [Issue.mk ("/docs/guides/foo") ("formatting"),
       Issue.mk ("/docs/guides/foo") ("points-to-alias")] :=
  c1_formatting_then_alias _ _ _ (by decide) (by decide) (by decide) (by decide) (by decide)
    (by decide) (by decide) (by decide) (by decide) (by decide) (by decide) (by decide) (by decide)

/-- Claim C2, counterexample. A single link can be classified into two
distinct issue categories: `/docs/guides/foo` against an empty registry
receives both a `formatting` issue and a `not-found` issue, because the
formatting checks do not short-circuit. -/
theorem c2_counterexample :
    (classifyLink [] [] ("/docs/guides/foo")).map Issue.type_id = ["formatting", "not-found"] ∧
    2 ≤ (classifyLink [] [] ("/docs/guides/foo")).length := by decide

/-- Claim C2, amended. For every extracted link target, at most one issue
whose type id is not `formatting` is emitted: aside from the formatting
rules (which append an issue and keep evaluating), the checks are mutually
exclusive via ordered short-circuit evaluation. -/
theorem c2_at_most_one_nonformatting (guides : List Guide) (assets : List Asset) (L : String) :
    ((classifyLink guides assets L).filter (fun i => !(i.type_id == "formatting"))).length ≤ 1 := by
  unfold classifyLink
  split_ifs <;> try simp
  all_goals
    · split
      · simp
      · split
        · simp
        · exact classifyTail_nonformatting guides L _

/-- Claim C3. Once a line whose trimmed text starts with one of the fixed
block-opening markers is encountered, every subsequent line is skipped for
link extraction until end of file: while the flag is set nothing is
extracted and the flag is never cleared (the `elif` that would clear it
tests the identical condition), so the scan of a document equals the scan
of its prefix up to and including the first marker line. -/
theorem c3_special_block_never_unset (extract : String → List String) :
    (∀ lines, scanLines extract lines true = []) ∧
    (∀ pre line post, isMarkerLine line = true →
      scanLines extract (pre ++ line :: post) false =
        scanLines extract (pre ++ [line]) false) := by
  constructor
  · exact fun lines => scanLines_inside extract lines
  · intro pre line post h
    induction pre with
    | nil => simp [scanLines, h, scanLines_inside]
    | cons x xs ih => by_cases hx : isMarkerLine x <;> simp [scanLines, hx, scanLines_inside, ih]

/-- Witness for C3: a fenced code block opener hides the rest of the file. -/
theorem c3_witness :
    scanLines (fun l => [l]) (["alpha"] ++ "```" :: ["beta"]) false =
      scanLines (fun l => [l]) (["alpha"] ++ ["```"]) false :=
  (c3_special_block_never_unset (fun l => [l])).2 (["alpha"]) ("```") (["beta"]) (by decide)

/-- Claim C5. A target containing the docs domain name followed by
`/docs/` is classified as exactly one `docs-domain-name` issue, before any
other check runs (in particular even when it starts with `https://`). -/
theorem c5_docs_domain_short_circuit (guides : List Guide) (assets : List Asset) (L : String)
    (h : pyIn ("linode.com/docs/") L = true) :
    classifyLink guides assets L = [Issue.mk L ("docs-domain-name")] := by
  simp [classifyLink, h]

/-- Witness for C5, with a target that also starts with `https://`. -/
theorem c5_witness :
    classifyLink [] [] ("https://www.linode.com/docs/guides/foo/") =
      [Issue.mk ("https://www.linode.com/docs/guides/foo/") ("docs-domain-name")] :=
  c5_docs_domain_short_circuit [] [] _ (by decide)

/-- Claim C8. The duplicate-alias checker never flags the first occurrence
of an alias across the flattened registry-order alias sequence and emits
exactly one `duplicate-alias` issue per subsequent occurrence (the issue
count for alias `a` is its occurrence count minus one); in particular two
pages each declaring alias `old-page` produce exactly one issue. -/
theorem c8_duplicate_alias :
    (∀ (guides : List Guide) (a : String),
      (get_duplicate_aliases guides).countP (fun i => i.link == a) =
        (guides.flatMap Guide.aliases).count a - 1) ∧
    (∀ (guides : List Guide), ∀ i ∈ get_duplicate_aliases guides,
      i.type_id = "duplicate-alias") ∧
    (∀ g1 g2 : Guide, g1.aliases = ["old-page"] → g2.aliases = ["old-page"] →
      get_duplicate_aliases [g1, g2] = [Issue.mk ("old-page") ("duplicate-alias")]) := by
  refine ⟨fun guides a => ?_, fun guides => dupAux_type_id _ [], fun g1 g2 h1 h2 => ?_⟩
  · rw [get_duplicate_aliases, dupAux_countP]
    simp
  · rw [get_duplicate_aliases,
      show ([g1, g2].flatMap Guide.aliases) = ["old-page", "old-page"] from by simp [h1, h2]]
    decide

/-- Witness for C8: two concrete pages sharing alias `old-page`. -/
theorem c8_witness :
    get_duplicate_aliases
      [Guide.mk ("docs/guides/a/index.md") ("A") ("/docs/guides/a/") (["old-page"]),
       Guide.mk ("docs/guides/b/index.md") ("B") ("/docs/guides/b/") (["old-page"])] =
      [Issue.mk ("old-page") ("duplicate-alias")] :=
  c8_duplicate_alias.2.2 _ _ rfl rfl

/-- Claim C9. A target starting with `http://`, `https://` or `ftp://`
that does not contain the docs domain name followed by `/docs/` produces
no issue. -/
theorem c9_external_skipped (guides : List Guide) (assets : List Asset) (L : String)
    (h1 : pyIn ("linode.com/docs/") L = false)
    (h2 : pyStartsWith L ("http://") = true ∨ pyStartsWith L ("https://") = true
      ∨ pyStartsWith L ("ftp://") = true) :
    classifyLink guides assets L = [] := by
  rcases h2 with h2 | h2 | h2 <;> simp [classifyLink, h1, h2]

/-- Witness for C9: an external link produces no issue. -/
theorem c9_witness : classifyLink [] [] ("https://example.com/foo") = [] :=
  c9_external_skipped [] [] _ (by decide) (Or.inr (Or.inl (by decide)))

/-- Removing an issue whose type id is `formatting` leaves the aggregation
unchanged: no statically defined issue type matches it. -/
lemma aggregate_drop_formatting (pre post : List Issue) (i : Issue)
    (hi : i.type_id = "formatting") :
    aggregate (pre ++ i :: post) = aggregate (pre ++ post) := by
  simp [aggregate, issue_types, List.filter_append, List.filter_cons, hi]

/-- Claim C4. The type id `formatting` equals the id of no statically
defined `IssueType`; consequently the aggregator assigns formatting issues
to no category (removing one leaves every category's issue list unchanged,
so they never appear in the rendered report) and they never affect the
exit code. -/
theorem c4_formatting_uncategorized :
    ("formatting" ∉ issue_types.map IssueType.id) ∧
    (∀ (pre post : List Issue) (i : Issue), i.type_id = "formatting" →
      aggregate (pre ++ i :: post) = aggregate (pre ++ post)) ∧
    (∀ (pre post : List Issue) (i : Issue), i.type_id = "formatting" →
      exit_code (pre ++ i :: post) = exit_code (pre ++ post)) := by
  refine ⟨by decide, fun pre post i hi => aggregate_drop_formatting pre post i hi, ?_⟩
  intro pre post i hi
  unfold exit_code test_failed
  rw [aggregate_drop_formatting pre post i hi]

/-- Witness for C4: a concrete formatting issue is invisible to the
aggregator and the exit code. -/
theorem c4_witness :
    aggregate ([] ++ (Issue.mk ("/docs/x") ("formatting")) :: []) = aggregate ([] ++ []) ∧
    exit_code ([] ++ (Issue.mk ("/docs/x") ("formatting")) :: []) = exit_code ([] ++ []) :=
  ⟨c4_formatting_uncategorized.2.1 [] [] _ rfl,
   c4_formatting_uncategorized.2.2 [] [] _ rfl⟩

/-- Failure criterion of lines 316-319, in terms of the issue list. -/
lemma test_failed_iff (issues : List Issue) :
    test_failed issues = true ↔
      ∃ t ∈ issue_types, t.severity = "failure" ∧
        issues.filter (fun i => i.type_id == t.id) ≠ [] := by
  simp [test_failed, aggregate, List.any_eq_true, List.length_eq_zero]

/-- Removing a `points-to-alias` issue (the only warning-severity type)
never changes the exit code. -/
lemma exit_code_drop_warning (pre post : List Issue) (i : Issue)
    (hi : i.type_id = "points-to-alias") :
    exit_code (pre ++ i :: post) = exit_code (pre ++ post) := by
  unfold exit_code test_failed aggregate
  simp [issue_types, List.filter_append, List.filter_cons, hi]

/-- Claim C7. The exit code is 0 exactly when no failure-severity issue
type has a non-empty issue list, and removing an issue whose type id
belongs to a warning-severity type never changes the exit code. -/
theorem c7_exit_code (issues : List Issue) :
    (exit_code issues = 0 ↔
      ∀ t ∈ issue_types, t.severity = "failure" →
        issues.filter (fun i => i.type_id == t.id) = []) ∧
    (∀ (pre post : List Issue) (i : Issue) (t : IssueType),
      t ∈ issue_types → t.severity = "warning" → i.type_id = t.id →
      exit_code (pre ++ i :: post) = exit_code (pre ++ post)) := by
  constructor
  · rw [exit_code]
    have hiff := test_failed_iff issues
    cases htf : test_failed issues
    · rw [htf] at hiff
      simp only [Bool.false_eq_true, false_iff] at hiff
      push_neg at hiff
      simpa using hiff
    · rw [htf] at hiff
      simp only [true_iff] at hiff
      refine iff_of_false (by simp) ?_
      rcases hiff with ⟨t, ht, hsev, hne⟩
      intro hall
      exact hne (hall t ht hsev)
  · intro pre post i t ht hsev hi
    have hids : t.id = "points-to-alias" := by
      simp [issue_types] at ht
      rcases ht with rfl | rfl | rfl | rfl | rfl | rfl <;> first | rfl | simp at hsev
    rw [hids] at hi
    exact exit_code_drop_warning pre post i hi

/-- Witness for C7: a lone warning-severity issue exits 0, and removing it
does not change the exit code. -/
theorem c7_witness :
    exit_code [Issue.mk ("/docs/x/") ("points-to-alias")] = 0 ∧
    exit_code ([] ++ (Issue.mk ("/docs/x/") ("points-to-alias")) :: []) = exit_code ([] ++ []) :=
  ⟨(c7_exit_code [Issue.mk ("/docs/x/") ("points-to-alias")]).1.mpr (by decide),
   (c7_exit_code []).2 [] [] (Issue.mk ("/docs/x/") ("points-to-alias"))
     (IssueType.mk ("points-to-alias") ("Target is alias")
       ("The link points to an alias of guide instead of its current URL.") ("warning") 50)
     (by decide) rfl rfl⟩

/-- Headless markdown files are skipped by the walk step. -/
lemma scanStep_headless (e : FileEntry) (fm : FrontMatter)
    (hmd : pyEndsWith e.path (".md") = true)
    (hfm : e.fm = some fm)
    (hh : fm.headless = some true) :
    ∀ r, scanStep e r = r := by
  intro r
  simp [scanStep, hmd, hfm, hh]

/-- A headless markdown file contributes neither a page nor an asset. -/
lemma get_guides_headless (pre post : List FileEntry) (e : FileEntry) (fm : FrontMatter)
    (hmd : pyEndsWith e.path (".md") = true)
    (hfm : e.fm = some fm)
    (hh : fm.headless = some true) :
    get_guides (pre ++ e :: post) = get_guides (pre ++ post) := by
  have hs : scanFiles (pre ++ e :: post) = scanFiles (pre ++ post) := by
    simp [scanFiles, List.foldr_append, scanStep_headless e fm hmd hfm hh]
  simp [get_guides, hs]

/-- Claim C6. A document with `headless: true` contributes nothing to the
registry (pages or assets), and a link equal to its former canonical link
which matches no remaining page, asset or alias is classified `not-found`. -/
theorem c6_headless_excluded (pre post : List FileEntry) (e : FileEntry) (fm : FrontMatter)
    (hmd : pyEndsWith e.path (".md") = true)
    (hfm : e.fm = some fm)
    (hh : fm.headless = some true) :
    get_guides (pre ++ e :: post) = get_guides (pre ++ post) ∧
    (∀ L, L = canonicalLink e.path fm →
      (pyIn ("linode.com/docs/") L = false ∧
       pyStartsWith L ("http://") = false ∧
       pyStartsWith L ("https://") = false ∧
       pyStartsWith L ("ftp://") = false ∧
       (get_guides (pre ++ post)).2.any (fun x => x.link == L) = false ∧
       pyStartsWith L ("#") = false ∧
       pyIn ("#") L = false ∧
       pyIn ("/") L = true ∧
       pyStartsWith L ("/docs/") = true ∧
       pyIn ("//") L = false ∧
       pyEndsWith L ("/") = true ∧
       (get_guides (pre ++ post)).1.any (fun x => x.link == L) = false ∧
       (get_guides (pre ++ post)).1.any
         (fun x => x.aliases.contains (pyReplace L ("/docs/") ("/"))) = false) →
      classifyLink (get_guides (pre ++ e :: post)).1 (get_guides (pre ++ e :: post)).2 L =
        [Issue.mk L ("not-found")]) := by
  have hgg := get_guides_headless pre post e fm hmd hfm hh
  refine ⟨hgg, ?_⟩
  rintro L hL ⟨h1, h2, h3, h4, h5, h6, h7, h8, h9, h10, h11, h12, h13⟩
  rw [hgg]
  simp [classifyLink, classifyTail, collapseSlashes, appendSlash, lookupIssues,
    h1, h2, h3, h4, h5, h6, h7, h8, h9, h10, h11, h12]
  simpa using h13

/-- Witness for C6: a headless guide under `docs/guides/foo/` leaves the
registry with only the seed guides, and its former canonical link
`/docs/guides/foo/` resolves to `not-found`. -/
theorem c6_witness :
    classifyLink
      (get_guides [FileEntry.mk ("docs/guides/foo/index.md")
        (some { headless := some true, title := some ("Foo") })]).1
      (get_guides [FileEntry.mk ("docs/guides/foo/index.md")
        (some { headless := some true, title := some ("Foo") })]).2
      ("/docs/guides/foo/") =
      [Issue.mk ("/docs/guides/foo/") ("not-found")] :=
  (c6_headless_excluded [] []
    (FileEntry.mk ("docs/guides/foo/index.md")
      (some { headless := some true, title := some ("Foo") }))
    { headless := some true, title := some ("Foo") }
    (by decide) rfl rfl).2 ("/docs/guides/foo/") (by decide) (by decide)

/-- Claim C10, counterexample. The registry is seeded with four top-level
pages, not three, and the docs home page among them has the non-empty
source path `docs/_index.md` (so it is not a virtual page without a
backing file). -/
theorem c10_counterexample :
    (get_guides []).1.length = 4 ∧
    (∃ g ∈ (get_guides []).1, g.link = "/docs/" ∧ g.title = "Docs Home" ∧
      g.path = "docs/_index.md" ∧ g.path ≠ "") := by decide

/-- Claim C10, amended. The registry is seeded with four hard-coded
top-level pages: a docs home page backed by `docs/_index.md`, plus three
virtual destinations (Marketplace, Resources, Q&A) with fixed canonical
links and empty source paths; the classifier skips exactly the guides
whose source path is empty, so only those three are never scanned for
outgoing links. -/
theorem c10_four_seed_pages :
    (get_guides [] = (seedGuides, [])) ∧
    (∀ fs, ∃ rest, (get_guides fs).1 = seedGuides ++ rest) ∧
    ((seedGuides.filter (fun g => g.path == "")).map Guide.link =
      ["/docs/marketplace/", "/docs/resources/", "/docs/topresults/?docType=community"]) ∧
    ((seedGuides.filter (fun g => g.path == "")).length = 3) ∧
    (∀ (extract : String → List String) (content : String → List String)
       (guides : List Guide) (assets : List Asset) (g : Guide), g.path = "" →
      guideLinkIssues extract content guides assets g = []) := by
  refine ⟨by decide, fun fs => ⟨(scanFiles fs).1, rfl⟩, by decide, by decide, ?_⟩
  intro extract content guides assets g hg
  simp [guideLinkIssues, hg]

/-- Witness for C10: the virtual Marketplace page is never scanned. -/
theorem c10_witness :
    guideLinkIssues (fun l => [l]) (fun _ => []) [] []
      (Guide.mk ("") ("Marketplace") ("/docs/marketplace/") []) = [] :=
  c10_four_seed_pages.2.2.2.2 (fun l => [l]) (fun _ => []) [] []
    (Guide.mk ("") ("Marketplace") ("/docs/marketplace/") []) rfl

end MdLinks
